import Mathlib

/-!
Verification of the Travel_Itinerary repository.

The development embeds the itinerary-generation pipeline of
`src/services/gemini.js` (chunked prompting, defensive JSON extraction,
schema validation, fallback construction) and the image-resolution pipeline of
`src/services/unsplash.js` plus the `useImageCache` hook of `src/pages/Home.js`
(cache lookup, backend fetch, placeholder fallback).

JavaScript strings are modelled as `List Char` (`Str`), JSON values as the
inductive `JValue` (numbers kept as a decimal mantissa and scale, since the
code only ever inspects whether a field is numeric), and JavaScript exceptions
as `Except Str`.  Engine-provided error messages (the text of a `SyntaxError`
or `TypeError`) are modelled as fixed constants matching the V8 wording; no
claim depends on their exact text beyond what is stated in the theorems.
-/

set_option maxRecDepth 20000

abbrev Str := List Char

/-- Convert a Lean string literal to the `Str` model of a JavaScript string. -/
def lit (s : String) : Str := s.data

/-- JSON values as produced by `JSON.parse`.  Numbers are represented exactly
as a decimal mantissa together with the number of fractional digits, so
`28.6139` is `num 286139 4`; the code under verification only ever tests
whether a value is a number, never its magnitude. -/
inductive JValue : Type where
  | null : JValue
  | bool (b : Bool) : JValue
  | num (mant : Int) (scale : Nat) : JValue
  | str (s : Str) : JValue
  | arr (elems : List JValue) : JValue
  | obj (fields : List (Str × JValue)) : JValue

/-- JavaScript truthiness of a JSON value (`NaN` and `-0` do not arise from
the modelled parser, so numeric truthiness is mantissa-nonzero). -/
def truthy : JValue → Bool
  | .null => false
  | .bool b => b
  | .num m _ => m != 0
  | .str s => !s.isEmpty
  | .arr _ => true
  | .obj _ => true

/-- Truthiness of a possibly-undefined value (`none` models `undefined`). -/
def truthyOpt : Option JValue → Bool
  | none => false
  | some v => truthy v

/-- First-match association-list lookup for object fields. -/
def assocLookup : List (Str × JValue) → Str → Option JValue
  | [], _ => none
  | (k, v) :: fs, key => if k = key then some v else assocLookup fs key

/-- Pure property read used by the validator: on an object it looks the key
up, on any other non-null value it yields `undefined` (`none`). -/
def jget : JValue → Str → Option JValue
  | .obj fs, k => assocLookup fs k
  | _, _ => none

/-- Property read on a possibly-undefined receiver, total variant. -/
def jgetOpt : Option JValue → Str → Option JValue
  | none, _ => none
  | some v, k => jget v k

/-- Whether a possibly-undefined value is an array (`Array.isArray`). -/
def isArrOpt : Option JValue → Bool
  | some (.arr _) => true
  | _ => false

/-- Whether a possibly-undefined value is a number (`typeof x === "number"`). -/
def isNumOpt : Option JValue → Bool
  | some (.num _ _) => true
  | _ => false

/-- The `typeof` operator restricted to parsed JSON values. -/
def jsTypeof : JValue → Str
  | .null => lit "object"
  | .bool _ => lit "boolean"
  | .num _ _ => lit "number"
  | .str _ => lit "string"
  | .arr _ => lit "object"
  | .obj _ => lit "object"

/-- Decimal rendering of a natural number as a model string. -/
def natStr (n : Nat) : Str := (toString n).data

/-- JavaScript whitespace characters relevant to `trim` and `\s`
(ASCII subset; the responses modelled here contain no exotic spaces). -/
def wsChar (c : Char) : Bool := c = ' ' || c = '\t' || c = '\n' || c = '\r'

/-- Drop leading whitespace. -/
def skipWs : Str → Str
  | [] => []
  | c :: cs => if wsChar c then skipWs cs else c :: cs

/-- Model of `String.prototype.trim`. -/
def trimStr (cs : Str) : Str := ((skipWs cs).reverse |> skipWs).reverse

/-- One global-replace pass deleting every occurrence of `pat` together with
the run of whitespace that follows it, as a global regex replace by the empty
string does; the fuel equals the input length, which bounds the scan steps. -/
def stripAll (pat : Str) : Nat → Str → Str
  | 0, cs => cs
  | fuel + 1, cs =>
    match cs with
    | [] => []
    | c :: rest =>
      if pat.isPrefixOf cs then stripAll pat fuel (skipWs (cs.drop pat.length))
      else c :: stripAll pat fuel rest

/-- The two code-fence stripping passes of gemini.js lines 84:
first remove every three-backtick-json marker, then every bare
three-backtick marker, each with trailing whitespace. -/
def stripFencesAll (cs : Str) : Str :=
  let p1 := lit "```json"
  let p2 := lit "```"
  let s1 := stripAll p1 cs.length cs
  stripAll p2 s1.length s1

/-- Index of the first occurrence of a character, counting from `i`. -/
def idxOfAux (c : Char) : Str → Nat → Option Nat
  | [], _ => none
  | x :: xs, i => if x = c then some i else idxOfAux c xs (i + 1)

/-- Model of `String.prototype.indexOf` for a single character. -/
def idxOf (c : Char) (cs : Str) : Option Nat := idxOfAux c cs 0

/-- Model of `String.prototype.lastIndexOf` for a single character. -/
def lastIdxOf (c : Char) (cs : Str) : Option Nat :=
  (idxOf c cs.reverse).map (fun i => cs.length - 1 - i)

/-- Bracket slice of gemini.js lines 87-92: locate the first opening and last
closing square bracket and, when the latter is strictly after the former,
keep only the text between them inclusive. -/
def bracketSlice (cs : Str) : Str :=
  match idxOf '[' cs, lastIdxOf ']' cs with
  | some i, some j => if i < j then (cs.drop i).take (j + 1 - i) else cs
  | _, _ => cs

/-- Result of matching the recovery regex of gemini.js line 104 (an opening
bracket, any characters, a closing bracket, greedy): the leftmost-longest
match runs from the first opening bracket that precedes the last closing
bracket up to that closing bracket. -/
def regexArrayMatch (cs : Str) : Option Str :=
  match lastIdxOf ']' cs with
  | none => none
  | some j =>
    match idxOf '[' (cs.take j) with
    | none => none
    | some i => some ((cs.drop i).take (j + 1 - i))

/-- Numeric value of a decimal digit character. -/
def digitVal (c : Char) : Nat := c.toNat - 48

/-- Consume a maximal run of decimal digits, returning the accumulated value,
the number of digits consumed and the remaining input. -/
def parseDigitsAux : Str → Nat → Nat → Nat × Nat × Str
  | [], acc, n => (acc, n, [])
  | c :: cs, acc, n =>
    if c.isDigit then parseDigitsAux cs (acc * 10 + digitVal c) (n + 1)
    else (acc, n, c :: cs)

/-- JSON string escape characters supported by the model (the responses
exercised here use none beyond quote, backslash and the common controls;
unicode escapes are out of scope and make the parse fail). -/
def escChar (c : Char) : Option Char :=
  if c = '"' then some '"'
  else if c = '\\' then some '\\'
  else if c = '/' then some '/'
  else if c = 'n' then some '\n'
  else if c = 't' then some '\t'
  else if c = 'r' then some '\r'
  else if c = 'b' then some (Char.ofNat 8)
  else if c = 'f' then some (Char.ofNat 12)
  else none

/-- Parse the body of a JSON string after the opening quote, up to and
including the closing quote. -/
def parseStrChars : Str → Option (Str × Str)
  | [] => none
  | c :: cs =>
    if c = '"' then some ([], cs)
    else if c = '\\' then
      match cs with
      | [] => none
      | e :: cs2 =>
        match escChar e with
        | none => none
        | some ec =>
          match parseStrChars cs2 with
          | none => none
          | some (s, r) => some (ec :: s, r)
    else
      match parseStrChars cs with
      | none => none
      | some (s, r) => some (c :: s, r)

/-- Parse a JSON number (optional minus, integer part, optional fraction;
exponents are not exercised by the modelled responses). -/
def parseNum (cs : Str) : Option (JValue × Str) :=
  let signed : Bool × Str :=
    match cs with
    | c :: r => if c = '-' then (true, r) else (false, cs)
    | [] => (false, [])
  let neg := signed.1
  let (ip, n1, cs2) := parseDigitsAux signed.2 0 0
  if n1 = 0 then none
  else
    match cs2 with
    | '.' :: cs3 =>
      let (fp, n2, cs4) := parseDigitsAux cs3 0 0
      if n2 = 0 then none
      else
        let m : Int := Int.ofNat (ip * 10 ^ n2 + fp)
        some (.num (if neg then -m else m) n2, cs4)
    | _ => some (.num (if neg then -(Int.ofNat ip) else Int.ofNat ip) 0, cs2)

/-- The opening and closing curly braces, referenced by code point to keep
them out of the surface syntax. -/
def lbrace : Char := Char.ofNat 123

/-- Closing curly brace. -/
def rbrace : Char := Char.ofNat 125

mutual

/-- Fuel-indexed recursive-descent model of `JSON.parse` on the constructs the
generative backend is asked to produce: literals, numbers, strings, arrays
and objects.  Returns the value and the unconsumed input. -/
def parseV : Nat → Str → Option (JValue × Str)
  | 0, _ => none
  | fuel + 1, cs =>
    match skipWs cs with
    | [] => none
    | c :: rest =>
      if c = 'n' then
        if (lit "ull").isPrefixOf rest then some (.null, rest.drop 3) else none
      else if c = 't' then
        if (lit "rue").isPrefixOf rest then some (.bool true, rest.drop 3) else none
      else if c = 'f' then
        if (lit "alse").isPrefixOf rest then some (.bool false, rest.drop 4) else none
      else if c = '"' then
        match parseStrChars rest with
        | some (s, r) => some (.str s, r)
        | none => none
      else if c = '[' then
        match skipWs rest with
        | ']' :: r2 => some (.arr [], r2)
        | r2 => parseArrItems fuel r2 []
      else if c = lbrace then
        match skipWs rest with
        | r2 =>
          if r2.head? = some rbrace then some (.obj [], r2.drop 1)
          else parseObjItems fuel r2 []
      else parseNum (c :: rest)

/-- Parse the comma-separated items of a non-empty JSON array. -/
def parseArrItems : Nat → Str → List JValue → Option (JValue × Str)
  | 0, _, _ => none
  | fuel + 1, cs, acc =>
    match parseV fuel cs with
    | none => none
    | some (v, rest) =>
      match skipWs rest with
      | ',' :: r2 => parseArrItems fuel r2 (acc ++ [v])
      | ']' :: r2 => some (.arr (acc ++ [v]), r2)
      | _ => none

/-- Parse the comma-separated members of a non-empty JSON object. -/
def parseObjItems : Nat → Str → List (Str × JValue) → Option (JValue × Str)
  | 0, _, _ => none
  | fuel + 1, cs, acc =>
    match skipWs cs with
    | '"' :: r =>
      match parseStrChars r with
      | none => none
      | some (k, r2) =>
        match skipWs r2 with
        | ':' :: r3 =>
          match parseV fuel r3 with
          | none => none
          | some (v, r4) =>
            match skipWs r4 with
            | ',' :: r5 => parseObjItems fuel r5 (acc ++ [(k, v)])
            | c :: r5 =>
              if c = rbrace then some (.obj (acc ++ [(k, v)]), r5) else none
            | [] => none
        | _ => none
    | _ => none

end

/-- Model of `JSON.parse`: parse one value and require that only whitespace
remains.  `none` models a thrown `SyntaxError`. -/
def jsonParse (cs : Str) : Option JValue :=
  match parseV (4 * cs.length + 8) cs with
  | some (v, rest) => if skipWs rest = [] then some v else none
  | none => none

/-- Message of the engine `SyntaxError` raised by a failed `JSON.parse`;
its exact wording is engine specific and is modelled as a constant. -/
def jsonSyntaxError : Str := lit "Unexpected token in JSON"

/-- Apostrophe character, referenced by code point. -/
def apos : Char := Char.ofNat 39

/-- Message of the `TypeError` raised by reading a property of `null`
(V8 wording); it mentions the property name but no element index. -/
def nullReadMsg (k : Str) : Str :=
  lit "Cannot read properties of null (reading " ++ [apos] ++ k ++ [apos, ')']

/-- Property read as the validator performs it: reading a property of `null`
throws a `TypeError`; on every other value it is the pure read `jget`.
Parsed JSON never contains `undefined`, so that receiver case cannot arise
inside a parsed chunk. -/
def vget (v : JValue) (k : Str) : Except Str (Option JValue) :=
  match v with
  | .null => .error (nullReadMsg k)
  | w => .ok (jget w k)

/-- Error message of gemini.js line 127 for a malformed day object. -/
def dayMsg (i s e : Nat) : Str :=
  lit "Invalid day structure at index " ++ natStr i ++ lit " in chunk " ++
    natStr s ++ lit "-" ++ natStr e

/-- Error message of gemini.js line 133 for a malformed place object. -/
def placeMsg (p i s e : Nat) : Str :=
  lit "Invalid place structure at place " ++ natStr p ++ lit " in day " ++
    natStr i ++ lit " of chunk " ++ natStr s ++ lit "-" ++ natStr e

/-- Check of gemini.js lines 131-132 for one itinerary entry: reads `name`,
`description` and `location` (throwing on a null entry), requires all three
truthy and then requires `location.lat` and `location.lng` to be numbers.
Returns `false` when the structural condition fails. -/
def validatePlace (pl : JValue) : Except Str Bool :=
  match vget pl (lit "name"), vget pl (lit "description"), vget pl (lit "location") with
  | .error m, _, _ => .error m
  | .ok _, .error m, _ => .error m
  | .ok _, .ok _, .error m => .error m
  | .ok name, .ok desc, .ok loc =>
    if !truthyOpt name || !truthyOpt desc || !truthyOpt loc then .ok false
    else .ok (isNumOpt (jgetOpt loc (lit "lat")) && isNumOpt (jgetOpt loc (lit "lng")))

/-- Iterate the place check over a day itinerary, raising the indexed error
of line 133 at the first offending entry. -/
def validatePlaces (s e i : Nat) : Nat → List JValue → Except Str Unit
  | _, [] => .ok ()
  | p, pl :: rest =>
    match validatePlace pl with
    | .error m => .error m
    | .ok ok => if ok then validatePlaces s e i (p + 1) rest else .error (placeMsg p i s e)

/-- Extract the itinerary list of a day whose shallow check passed. -/
def itinList (itin : Option JValue) : List JValue :=
  match itin with
  | some (.arr ps) => ps
  | _ => []

/-- Check of gemini.js lines 126-128 for one day object: reads `title` and
`itinerary` (throwing on a null day), requires a truthy title and an
array-typed itinerary, then validates every place. -/
def validateDay (s e i : Nat) (d : JValue) : Except Str Unit :=
  match vget d (lit "title"), vget d (lit "itinerary") with
  | .error m, _ => .error m
  | .ok _, .error m => .error m
  | .ok title, .ok itin =>
    if !truthyOpt title || !truthyOpt itin || !isArrOpt itin then .error (dayMsg i s e)
    else validatePlaces s e i 0 (itinList itin)

/-- Iterate the day check over a parsed chunk (the `forEach` of line 125). -/
def validateDays (s e : Nat) : Nat → List JValue → Except Str Unit
  | _, [] => .ok ()
  | i, d :: rest =>
    match validateDay s e i d with
    | .error m => .error m
    | .ok _ => validateDays s e (i + 1) rest

/-- Chunk validation of gemini.js lines 119-136: the payload must be an array
(line 120) and every day and place must be well formed; on success the day
list is returned for accumulation. -/
def validateChunk (s e : Nat) (v : JValue) : Except Str (List JValue) :=
  match v with
  | .arr ds =>
    match validateDays s e 0 ds with
    | .error m => .error m
    | .ok _ => .ok ds
  | w =>
    .error (lit "Expected array but got " ++ jsTypeof w ++ lit " for days " ++
      natStr s ++ lit "-" ++ natStr e)

/-- The cleaned response of gemini.js lines 81-92: trim, strip code fences,
then slice between the outermost square brackets. -/
def cleanedText (text : Str) : Str := bracketSlice (stripFencesAll (trimStr text))

/-- JSON extraction of gemini.js lines 81-116: parse the cleaned text; on a
parse failure scan once for an array-shaped substring with the recovery regex
and retry parsing exactly once; propagate a window-scoped error if that also
fails. -/
def extractJson (s e : Nat) (text : Str) : Except Str JValue :=
  match jsonParse (cleanedText text) with
  | some v => .ok v
  | none =>
    match regexArrayMatch (cleanedText text) with
    | some m =>
      match jsonParse m with
      | some v => .ok v
      | none =>
        .error (lit "JSON parsing failed for days " ++ natStr s ++ lit "-" ++
          natStr e ++ lit ": " ++ jsonSyntaxError)
    | none =>
      .error (lit "No valid JSON array found in response for days " ++
        natStr s ++ lit "-" ++ natStr e)

/-- Days allowed per generation window (gemini.js line 18). -/
def CHUNK_SIZE : Nat := 7

/-- Window ranges visited by the loop of gemini.js line 25, starting at
`start` with the given remaining fuel (one unit per iteration suffices since
the start index grows by `CHUNK_SIZE` each time). -/
def windowsFrom : Nat → Nat → Nat → List (Nat × Nat)
  | _, _, 0 => []
  | start, days, fuel + 1 =>
    if start ≤ days then
      (start, min (start + CHUNK_SIZE - 1) days) :: windowsFrom (start + CHUNK_SIZE) days fuel
    else []

/-- The day windows requested for a trip of `days` days: `[1..7]`, `[8..14]`
and so on, the last window clipped to `days`. -/
def windows (days : Nat) : List (Nat × Nat) := windowsFrom 1 days days

/-- Outcome of one backend round trip for one window: the thrown error of the
network layer, or the free-form response text. -/
abbrev WindowResponse := Except Str Str

/-- Steps 3-6 of one window: take the backend outcome, extract the JSON
payload and validate it, any failure carrying a window-scoped message. -/
def processWindow (s e : Nat) (r : WindowResponse) : Except Str (List JValue) :=
  match r with
  | .error m => .error m
  | .ok text =>
    match extractJson s e text with
    | .error m => .error m
    | .ok v => validateChunk s e v

/-- The sequential window loop: process each window in order, appending the
validated days to the accumulator; the first exception aborts the loop and
discards the accumulator. -/
def runWindowsAux (resp : Nat × Nat → WindowResponse) :
    List (Nat × Nat) → List JValue → Except Str (List JValue)
  | [], acc => .ok acc
  | (s, e) :: ws, acc =>
    match processWindow s e (resp (s, e)) with
    | .error m => .error m
    | .ok ds => runWindowsAux resp ws (acc ++ ds)

/-- The body of the `try` block of gemini.js lines 22-148, with the backend
modelled as a map from the window range embedded in the prompt to the
response outcome. -/
def runWindows (resp : Nat × Nat → WindowResponse) (days : Nat) :
    Except Str (List JValue) :=
  runWindowsAux resp (windows days) []

/-- Truthiness of the configured API key as read from the environment
(`none` models an unset variable, the empty string is falsy). -/
def envTruthy : Option Str → Bool
  | none => false
  | some s => !s.isEmpty

/-- Message of the error thrown by gemini.js line 11 when the key is absent. -/
def missingKeyMsg : Str := lit "Gemini API key is missing. Please check your .env file."

/-- Prefix of the fallback description of gemini.js line 168; the failure
reason is appended to it. -/
def fallbackPrefix : Str := lit "Default location because AI parsing failed. Error: "

/-- The synthetic single-day fallback itinerary of gemini.js lines 162-173,
parameterised by the message of the caught error. -/
def fallbackPlan (errMsg : Str) : List JValue :=
  [ .obj
      [ (lit "title", .str (lit "Day 1: Default Plan (API Error)")),
        (lit "itinerary", .arr
          [ .obj
              [ (lit "name", .str (lit "Fallback Spot")),
                (lit "description", .str (fallbackPrefix ++ errMsg)),
                (lit "location", .obj
                  [ (lit "lat", .num 286139 4),
                    (lit "lng", .num 772090 4),
                    (lit "label", .str (lit "Fallback Spot")) ]) ] ]) ] ]

/-- Condition of the non-fatal day-count warning of gemini.js line 144. -/
def mismatchWarning (plans : List JValue) (days : Nat) : Bool :=
  plans.length != days

/-- Model of `generateItinerary` (gemini.js lines 6-175).  The city and
budget arguments only feed the prompt text and are therefore absorbed into
the response map `resp`; `days` drives the window loop.  A missing API key
throws before the `try` block; any exception inside the loop is converted
into the fallback plan; a day-count mismatch is only logged. -/
def generateItinerary (apiKey : Option Str) (resp : Nat × Nat → WindowResponse)
    (days : Nat) : Except Str (List JValue) :=
  if envTruthy apiKey then
    match runWindows resp days with
    | .ok plans => .ok plans
    | .error e => .ok (fallbackPlan e)
  else .error missingKeyMsg

/-- Spec-side well-formedness of one itinerary entry, as a boolean: truthy
`name`, `description` and `location`, and numeric `location.lat` and
`location.lng`. -/
def placeOkB (pl : JValue) : Bool :=
  truthyOpt (jget pl (lit "name")) && truthyOpt (jget pl (lit "description")) &&
  truthyOpt (jget pl (lit "location")) &&
  isNumOpt (jgetOpt (jget pl (lit "location")) (lit "lat")) &&
  isNumOpt (jgetOpt (jget pl (lit "location")) (lit "lng"))

/-- Spec-side shallow well-formedness of one day: truthy `title` and an
array-typed `itinerary`. -/
def dayShallowOkB (d : JValue) : Bool :=
  truthyOpt (jget d (lit "title")) && truthyOpt (jget d (lit "itinerary")) &&
  isArrOpt (jget d (lit "itinerary"))

/-- Spec-side well-formedness of one day including all of its places. -/
def dayOkB (d : JValue) : Bool :=
  dayShallowOkB d && (itinList (jget d (lit "itinerary"))).all placeOkB

/-- Spec-side well-formedness of a whole parsed chunk: an array whose
elements are all well-formed days. -/
def chunkOkB : JValue → Bool
  | .arr ds => ds.all dayOkB
  | _ => false

/-- Message of the `TypeError` raised by reading a property of `undefined`
(V8 wording, modelled as a constant). -/
def undefReadMsg (k : Str) : Str :=
  lit "Cannot read properties of undefined (reading " ++ [apos] ++ k ++ [apos, ')']

/-- Whether a key is a pure decimal index (array element access). -/
def parseIndex (k : Str) : Option Nat :=
  if k ≠ [] && k.all Char.isDigit then some (parseDigitsAux k 0 0).1 else none

/-- Full JavaScript property access as exercised by the image resolver:
reading from `undefined` or `null` throws a `TypeError`; objects use field
lookup; arrays expose `length` and numeric indices; strings expose `length`
(character indexing is not exercised); other primitives yield `undefined`. -/
def jsGet : Option JValue → Str → Except Str (Option JValue)
  | none, k => .error (undefReadMsg k)
  | some .null, k => .error (nullReadMsg k)
  | some (.obj fs), k => .ok (assocLookup fs k)
  | some (.arr xs), k =>
    if k = lit "length" then .ok (some (.num (Int.ofNat xs.length) 0))
    else
      match parseIndex k with
      | some i => .ok (xs.get? i)
      | none => .ok none
  | some (.str s), k =>
    if k = lit "length" then .ok (some (.num (Int.ofNat s.length) 0)) else .ok none
  | some _, _ => .ok none

/-- JavaScript `x > 0` on the values that can reach the length comparison of
unsplash.js line 15: numbers compare numerically, booleans coerce, anything
else (including `undefined`, whose comparison is `NaN`) is false.  String
numeric coercion is not exercised by the modelled data. -/
def jsGtZero : Option JValue → Bool
  | some (.num m _) => decide (0 < m)
  | some (.bool b) => b
  | _ => false

/-- Outcome of the `fetch` round trip of unsplash.js lines 6-14: either the
network layer throws, or a response arrives with an `ok` flag and a body
whose `json()` either throws or yields a JSON value. -/
inductive FetchOutcome : Type where
  | netThrow (msg : Str) : FetchOutcome
  | resp (ok : Bool) (body : Except Str JValue) : FetchOutcome

/-- The fixed placeholder constant of unsplash.js lines 19 and 23. -/
def placeholderUrl : Str := lit "https://via.placeholder.com/600x400?text=No+Image"

/-- The property chain of unsplash.js lines 15-19 on a decoded body: read
`results`, compare its `length` against zero and, when positive, read
`results[0].urls.regular`; on zero (or non-positive) length produce the fixed
placeholder.  An `error` models a thrown `TypeError` inside the chain. -/
def imageFromData (data : JValue) : Except Str (Option JValue) := do
  let results ← jsGet (some data) (lit "results")
  let len ← jsGet results (lit "length")
  if jsGtZero len then
    let r0 ← jsGet results (lit "0")
    let urls ← jsGet r0 (lit "urls")
    let reg ← jsGet urls (lit "regular")
    pure reg
  else
    pure (some (.str placeholderUrl))

/-- Model of `getPlaceImage` (unsplash.js lines 4-25): every throw inside the
`try` block (network failure, non-ok status, body decode failure,
`TypeError` in the property chain) is caught and converted to the fixed
placeholder; otherwise the value produced by the chain is returned as is,
which for well-formed results is the first result URL. -/
def getPlaceImage (outcome : FetchOutcome) : Option JValue :=
  match outcome with
  | .netThrow _ => some (.str placeholderUrl)
  | .resp ok body =>
    if !ok then some (.str placeholderUrl)
    else
      match body with
      | .error _ => some (.str placeholderUrl)
      | .ok data =>
        match imageFromData data with
        | .error _ => some (.str placeholderUrl)
        | .ok v => v

/-- Characters left unescaped by `encodeURIComponent`. -/
def uriUnreserved (c : Char) : Bool :=
  c.isAlphanum || c = '-' || c = '_' || c = '.' || c = '!' || c = '~' ||
  c = '*' || c = apos || c = '(' || c = ')'

/-- Uppercase hexadecimal digit. -/
def hexDigit (n : Nat) : Char :=
  if n < 10 then Char.ofNat (48 + n) else Char.ofNat (55 + n)

/-- UTF-8 bytes of a code point. -/
def utf8Bytes (n : Nat) : List Nat :=
  if n < 128 then [n]
  else if n < 2048 then [192 + n / 64, 128 + n % 64]
  else if n < 65536 then [224 + n / 4096, 128 + n / 64 % 64, 128 + n % 64]
  else [240 + n / 262144, 128 + n / 4096 % 64, 128 + n / 64 % 64, 128 + n % 64]

/-- Model of `encodeURIComponent`: unreserved characters pass through, all
others are percent-encoded byte by byte. -/
def encodeURIComponent (s : Str) : Str :=
  s.flatMap fun c =>
    if uriUnreserved c then [c]
    else (utf8Bytes c.toNat).flatMap fun b => ['%', hexDigit (b / 16), hexDigit (b % 16)]

/-- The query-derived fallback URL of Home.js lines 223-225: a
source.unsplash.com search for the query, or for "travel" when the query is
falsy. -/
def unsplashFallback (query : Str) : Str :=
  lit "https://source.unsplash.com/600x400/?" ++
    encodeURIComponent (if query.isEmpty then lit "travel" else query)

/-- The session image cache of the `useImageCache` hook: a key-to-value map
with last-write-wins semantics, modelled as a front-inserted association
list. -/
abbrev Cache := List (Str × JValue)

/-- Map lookup (`cacheRef.current.get`). -/
def cacheGet : Cache → Str → Option JValue
  | [], _ => none
  | (k, v) :: c, key => if k = key then some v else cacheGet c key

/-- Map insertion (`cacheRef.current.set`), overriding any earlier entry. -/
def cacheSet (c : Cache) (k : Str) (v : JValue) : Cache := (k, v) :: c

/-- The fetch-and-cache path of `getOrFetch` (Home.js lines 212-227), taken
on a cache miss: call `getPlaceImage` once; a truthy result is cached and
returned; otherwise the query-derived source.unsplash.com fallback is cached
and returned.  The third component counts backend invocations (always one on
this path). -/
def getOrFetchMiss (backend : Str → FetchOutcome) (cache : Cache)
    (key query : Str) : JValue × Cache × Nat :=
  match getPlaceImage (backend query) with
  | some url =>
    if truthy url then (url, cacheSet cache key url, 1)
    else
      (.str (unsplashFallback query),
        cacheSet cache key (.str (unsplashFallback query)), 1)
  | none =>
    (.str (unsplashFallback query),
      cacheSet cache key (.str (unsplashFallback query)), 1)

/-- Model of `getOrFetch` (Home.js lines 208-231): a truthy cached value is
returned with no backend call; otherwise the fetch-and-cache path runs.
Returns the resolved value, the updated cache and the number of backend
invocations performed by this call. -/
def getOrFetch (backend : Str → FetchOutcome) (cache : Cache)
    (key query : Str) : JValue × Cache × Nat :=
  match cacheGet cache key with
  | some current =>
    if truthy current then (current, cache, 0)
    else getOrFetchMiss backend cache key query
  | none => getOrFetchMiss backend cache key query

/-- Substring test used to state that a message embeds another string. -/
def listContains (hay needle : Str) : Bool :=
  (List.range (hay.length + 1)).any fun i => needle.isPrefixOf (hay.drop i)

/-- Truthiness of the cache entry stored under a key, false on a miss. -/
def cacheHitTruthy (c : Cache) (k : Str) : Bool := truthyOpt (cacheGet c k)

/-- A well-formed one-day response text as the backend is instructed to
produce it. -/
def day1json : Str :=
  lit "[\x7b\"title\": \"Day 1: Arrival\", \"itinerary\": [\x7b\"name\": \"Gate\", \"description\": \"Arrive and settle in.\", \"location\": \x7b\"lat\": 28.6, \"lng\": 77.2, \"label\": \"Gate\"\x7d\x7d]\x7d]"

/-- The parsed day object of `day1json`. -/
def day1Obj : JValue :=
  .obj
    [ (lit "title", .str (lit "Day 1: Arrival")),
      (lit "itinerary", .arr
        [ .obj
            [ (lit "name", .str (lit "Gate")),
              (lit "description", .str (lit "Arrive and settle in.")),
              (lit "location", .obj
                [ (lit "lat", .num 286 1),
                  (lit "lng", .num 772 1),
                  (lit "label", .str (lit "Gate")) ]) ] ]) ]

/-- The parsed chunk of `day1json` as a day list. -/
def parsedDay1 : List JValue := [day1Obj]

/-- The parsed chunk of `day1json` as a JSON value. -/
def day1Value : JValue := .arr parsedDay1

/-- A model response wrapping `day1json` in a code fence with prose around
it, as generative backends often do despite the prompt instructions. -/
def fencedExample : Str :=
  lit "Here is your itinerary!\n```json\n" ++ day1json ++ lit "\n```\nEnjoy your trip."

/-- A backend whose every window request throws a network error. -/
def failingBackend : Nat × Nat → WindowResponse := fun _ => .error (lit "boom")

/-- A backend that answers the first window of an eight-day trip with a
valid response and fails on the second window. -/
def splitFailureBackend : Nat × Nat → WindowResponse :=
  fun w => if w = (1, 7) then .ok day1json else .error (lit "Network unreachable")

/-- A backend that answers every window with the one-day response, so a
two-day request comes back one day short. -/
def shortBackend : Nat × Nat → WindowResponse := fun _ => .ok day1json

/-- A day object whose title is the empty string (falsy). -/
def badDayExample : JValue := .obj [(lit "title", .str (lit ""))]

/-- An itinerary entry with a name but no description. -/
def badPlaceExample : JValue := .obj [(lit "name", .str (lit "Spot"))]

/-- A day whose shallow structure is fine but whose first place is bad. -/
def badPlaceDay : JValue :=
  .obj
    [ (lit "title", .str (lit "Day 2: Onward")),
      (lit "itinerary", .arr [badPlaceExample]) ]

/-- An image-search backend that succeeds with zero results. -/
def zeroResultsBackend : Str → FetchOutcome :=
  fun _ => .resp true (.ok (.obj [(lit "results", .arr [])]))

/-- A successful image-search response whose first result has a urls object
with no regular field. -/
def malformedResultOutcome : FetchOutcome :=
  .resp true (.ok (.obj [(lit "results", .arr [.obj [(lit "urls", .obj [])]])]))

/-- An image-search backend whose fetch always rejects with a network
error. -/
def downBackend : Str → FetchOutcome := fun _ => .netThrow (lit "fetch failed")


/-! ## Shared lemmas -/

/-- A list is a prefix of itself under the boolean prefix test. -/
theorem isPrefixOf_self (l : Str) : l.isPrefixOf l = true := by
  induction l with
  | nil => rfl
  | cons c cs ih => simp [List.isPrefixOf, ih]

/-- A string appears as a substring of any extension of itself on the left. -/
theorem listContains_append_left (p e : Str) : listContains (p ++ e) e = true := by
  unfold listContains
  rw [List.any_eq_true]
  refine ⟨p.length, ?_, ?_⟩
  · rw [List.mem_range, List.length_append]
    omega
  · rw [List.drop_left]
    exact isPrefixOf_self e

/-- The fallback description never degenerates to the empty string. -/
theorem fallbackDescription_ne_nil (e : Str) : fallbackPrefix ++ e ≠ [] := by
  have h : fallbackPrefix.length = 51 := rfl
  apply List.ne_nil_of_length_pos
  rw [List.length_append, h]
  omega

/-! ## C2: missing API key -/

/-- C2: when the generative API key is absent from configuration (unset or
the empty string, both falsy), `generateItinerary` throws the diagnostic
error of gemini.js line 11 before any generation work, for every response
behaviour and requested day count; it does not return an empty or fallback
result. -/
theorem generateItinerary_missingKey (apiKey : Option Str)
    (resp : Nat × Nat → WindowResponse) (days : Nat)
    (h : envTruthy apiKey = false) :
    generateItinerary apiKey resp days = .error missingKeyMsg := by
  simp [generateItinerary, h]

/-- Witness for C2 at an unset key. -/
theorem generateItinerary_missingKey_witness :
    envTruthy none = false ∧
      generateItinerary none failingBackend 3 = .error missingKeyMsg :=
  ⟨rfl, generateItinerary_missingKey none failingBackend 3 rfl⟩

/-! ## C1: total fallback behaviour -/

/-- C1: with the API key configured, `generateItinerary` never throws: it
always returns a plan list, and whenever the window loop raises any error
(network failure, JSON invalid even after regex recovery, or validation
failure) the returned value is the single-element fallback plan, whose
description is non-empty, embeds the failure reason, and which passes the
very schema validation applied to generated chunks (truthy title, one stop
with truthy name and description, numeric lat and lng). -/
theorem generateItinerary_never_throws (apiKey : Option Str)
    (resp : Nat × Nat → WindowResponse) (days : Nat)
    (h : envTruthy apiKey = true) :
    (∃ plans, generateItinerary apiKey resp days = .ok plans) ∧
    ∀ e, runWindows resp days = .error e →
      generateItinerary apiKey resp days = .ok (fallbackPlan e) ∧
      (fallbackPlan e).length = 1 ∧
      fallbackPrefix ++ e ≠ [] ∧
      listContains (fallbackPrefix ++ e) e = true ∧
      (validateChunk 1 1 (.arr (fallbackPlan e))).isOk = true := by
  constructor
  · cases hr : runWindows resp days with
    | ok plans => exact ⟨plans, by simp [generateItinerary, h, hr]⟩
    | error e => exact ⟨fallbackPlan e, by simp [generateItinerary, h, hr]⟩
  · intro e he
    exact ⟨by simp [generateItinerary, h, he], rfl,
      fallbackDescription_ne_nil e, listContains_append_left _ _, rfl⟩

/-- Witness for C1: a backend that always fails still yields the schema-valid
single-day fallback. -/
theorem generateItinerary_never_throws_witness :
    generateItinerary (some (lit "k")) failingBackend 1 = .ok (fallbackPlan (lit "boom")) ∧
    (fallbackPlan (lit "boom")).length = 1 ∧
    fallbackPrefix ++ lit "boom" ≠ [] ∧
    listContains (fallbackPrefix ++ lit "boom") (lit "boom") = true ∧
    (validateChunk 1 1 (.arr (fallbackPlan (lit "boom")))).isOk = true :=
  (generateItinerary_never_throws (some (lit "k")) failingBackend 1 rfl).2 (lit "boom") rfl

/-! ## C3: failure is all-or-nothing -/

/-- C3: whenever any window of the loop fails — request, parse or validation —
the whole result is exactly the single-element fallback plan, a value that
depends only on the error message and therefore contains none of the day
plans accumulated from earlier windows. -/
theorem generateItinerary_allOrNothing (apiKey : Option Str)
    (resp : Nat × Nat → WindowResponse) (days : Nat) (e : Str)
    (hk : envTruthy apiKey = true)
    (he : runWindows resp days = .error e) :
    generateItinerary apiKey resp days = .ok (fallbackPlan e) ∧
      (fallbackPlan e).length = 1 := by
  exact ⟨by simp [generateItinerary, hk, he], rfl⟩

/-- Witness for C3: an eight-day request whose first window parses and
validates successfully and whose second window fails returns only the
fallback day, discarding the validated first window. -/
theorem generateItinerary_allOrNothing_witness :
    (processWindow 1 7 (splitFailureBackend (1, 7))).isOk = true ∧
    runWindows splitFailureBackend 8 = .error (lit "Network unreachable") ∧
    generateItinerary (some (lit "k")) splitFailureBackend 8 =
      .ok (fallbackPlan (lit "Network unreachable")) ∧
    (fallbackPlan (lit "Network unreachable")).length = 1 :=
  ⟨rfl, rfl,
    (generateItinerary_allOrNothing (some (lit "k")) splitFailureBackend 8
      (lit "Network unreachable") rfl rfl).1,
    (generateItinerary_allOrNothing (some (lit "k")) splitFailureBackend 8
      (lit "Network unreachable") rfl rfl).2⟩

/-! ## C9: a day-count mismatch is non-fatal -/

/-- C9: when every window parses and validates, `generateItinerary` returns
the concatenation of the window results exactly as accumulated, whatever its
length: the comparison against the requested day count only drives the
logged warning and the result is neither padded, truncated, nor replaced by
the fallback. -/
theorem generateItinerary_passthrough (apiKey : Option Str)
    (resp : Nat × Nat → WindowResponse) (days : Nat) (plans : List JValue)
    (hk : envTruthy apiKey = true)
    (hr : runWindows resp days = .ok plans) :
    generateItinerary apiKey resp days = .ok plans := by
  simp [generateItinerary, hk, hr]

/-- Witness for C9: a two-day request answered with a single day returns that
single day unchanged while the warning condition holds. -/
theorem generateItinerary_passthrough_witness :
    runWindows shortBackend 2 = .ok parsedDay1 ∧
    generateItinerary (some (lit "k")) shortBackend 2 = .ok parsedDay1 ∧
    mismatchWarning parsedDay1 2 = true ∧
    parsedDay1.length = 1 :=
  ⟨rfl, generateItinerary_passthrough (some (lit "k")) shortBackend 2 parsedDay1 rfl rfl,
    rfl, rfl⟩

/-! ## C6: fixed-size windowing -/

/-- Every window produced by the loop lies inside the requested range, starts
no earlier than the running start index and spans at most `CHUNK_SIZE`
days. -/
theorem windowsFrom_bounds (fuel : Nat) :
    ∀ (start days : Nat) (p : Nat × Nat), p ∈ windowsFrom start days fuel →
      start ≤ p.1 ∧ p.1 ≤ p.2 ∧ p.2 ≤ days ∧ p.2 + 1 ≤ p.1 + CHUNK_SIZE := by
  induction fuel with
  | zero => intro start days p hp; simp [windowsFrom] at hp
  | succ fuel ih =>
    intro start days p hp
    rw [windowsFrom] at hp
    by_cases hs : start ≤ days
    · rw [if_pos hs, List.mem_cons] at hp
      cases hp with
      | inl heq =>
        subst heq
        have h1 := Nat.min_le_left (start + CHUNK_SIZE - 1) days
        have h2 := Nat.min_le_right (start + CHUNK_SIZE - 1) days
        refine ⟨Nat.le_refl _, ?_, h2, ?_⟩
        · refine Nat.le_min.mpr ⟨?_, hs⟩
          simp only [CHUNK_SIZE]
          omega
        · simp only [CHUNK_SIZE] at h1 ⊢
          omega
      | inr hmem =>
        have h := ih (start + CHUNK_SIZE) days p hmem
        exact ⟨by omega, h.2.1, h.2.2.1, h.2.2.2⟩
    · rw [if_neg hs] at hp
      simp at hp

/-- The window loop consults the backend only at the listed windows. -/
theorem runWindowsAux_congr (resp resp' : Nat × Nat → WindowResponse) :
    ∀ (ws : List (Nat × Nat)) (acc : List JValue),
      (∀ w ∈ ws, resp w = resp' w) →
      runWindowsAux resp ws acc = runWindowsAux resp' ws acc := by
  intro ws
  induction ws with
  | nil => intro acc _; rfl
  | cons w ws ih =>
    intro acc h
    obtain ⟨s, e⟩ := w
    have hw : resp (s, e) = resp' (s, e) := h (s, e) (List.mem_cons_self _ _)
    rw [runWindowsAux, runWindowsAux, hw]
    cases processWindow s e (resp' (s, e)) with
    | error m => rfl
    | ok ds => exact ih (acc ++ ds) fun w hwm => h w (List.mem_cons_of_mem _ hwm)

/-- C6: the requested day range is partitioned into windows of at most
`CHUNK_SIZE = 7` days starting at day 1; a ten-day request yields exactly the
two windows 1-7 and 8-10, each window drives exactly one backend request (the
loop result depends on the backend only through its answers at the listed
windows), and every window lies within the requested range. -/
theorem windows_chunking :
    windows 10 = [(1, 7), (8, 10)] ∧
    (windows 10).length = 2 ∧
    (∀ days p, p ∈ windows days →
      1 ≤ p.1 ∧ p.1 ≤ p.2 ∧ p.2 ≤ days ∧ p.2 + 1 ≤ p.1 + CHUNK_SIZE) ∧
    (∀ days (resp resp' : Nat × Nat → WindowResponse),
      (∀ w ∈ windows days, resp w = resp' w) →
      runWindows resp days = runWindows resp' days) := by
  refine ⟨rfl, rfl, ?_, ?_⟩
  · intro days p hp
    exact windowsFrom_bounds days 1 days p hp
  · intro days resp resp' h
    exact runWindowsAux_congr resp resp' (windows days) [] h

/-- Witness for C6 at the ten-day request. -/
theorem windows_chunking_witness :
    (1 ≤ 8 ∧ 8 ≤ 10 ∧ 10 ≤ 10 ∧ 10 + 1 ≤ 8 + CHUNK_SIZE) ∧
    runWindows shortBackend 10 = runWindows shortBackend 10 :=
  ⟨windows_chunking.2.2.1 10 (8, 10) (by decide),
    windows_chunking.2.2.2 10 shortBackend shortBackend (fun _ _ => rfl)⟩

/-! ## C7: cache hits bypass the backend -/

/-- The fetch-and-cache path always produces a truthy value and stores that
very value under the key. -/
theorem getOrFetchMiss_spec (backend : Str → FetchOutcome) (cache : Cache)
    (key query : Str) :
    truthy (getOrFetchMiss backend cache key query).1 = true ∧
    (getOrFetchMiss backend cache key query).2.1 =
      cacheSet cache key (getOrFetchMiss backend cache key query).1 := by
  unfold getOrFetchMiss
  cases hg : getPlaceImage (backend query) with
  | none => exact ⟨rfl, rfl⟩
  | some url =>
    dsimp only
    cases ht : truthy url with
    | false => exact ⟨rfl, rfl⟩
    | true => exact ⟨ht, rfl⟩

/-- Looking up the key just written returns the written value. -/
theorem cacheGet_set_self (c : Cache) (k : Str) (v : JValue) :
    cacheGet (cacheSet c k v) k = some v := by
  simp [cacheGet, cacheSet]

/-- C7: after any call of the image resolver completes, a second call with
the same key (whatever its query) returns the identical value and performs
no backend invocation: the cached value is served without calling the
image-search API again. -/
theorem getOrFetch_second_cached (backend : Str → FetchOutcome) (cache : Cache)
    (key q1 q2 : Str) :
    (getOrFetch backend (getOrFetch backend cache key q1).2.1 key q2).1 =
      (getOrFetch backend cache key q1).1 ∧
    (getOrFetch backend (getOrFetch backend cache key q1).2.1 key q2).2.2 = 0 := by
  have hmiss := getOrFetchMiss_spec backend cache key q1
  unfold getOrFetch
  cases hc : cacheGet cache key with
  | some current =>
    cases ht : truthy current with
    | true => simp [hc, ht]
    | false =>
      simp only [hc, ht, Bool.false_eq_true, if_false]
      rw [hmiss.2, cacheGet_set_self]
      simp [hmiss.1]
  | none =>
    simp only [hc]
    rw [hmiss.2, cacheGet_set_self]
    simp [hmiss.1]

/-! ## C8 and C10: image resolver fallbacks -/

/-- When the decoded body carries an empty results array, the property chain
produces the fixed placeholder. -/
theorem imageFromData_zero (data : JValue)
    (hz : jsGet (some data) (lit "results") = .ok (some (.arr []))) :
    imageFromData data = .ok (some (.str placeholderUrl)) := by
  unfold imageFromData
  rw [hz]
  rfl

/-- A successful response with zero results resolves to the fixed
placeholder constant. -/
theorem getPlaceImage_zeroData (data : JValue)
    (hz : jsGet (some data) (lit "results") = .ok (some (.arr []))) :
    getPlaceImage (.resp true (.ok data)) = some (.str placeholderUrl) := by
  unfold getPlaceImage
  dsimp only
  rw [imageFromData_zero data hz]
  rfl

/-- C8 (amended): on a cache miss, whenever the image-search round trip
throws a network error, returns a non-ok response, delivers a body whose
decoding throws, or succeeds with zero results, the resolver returns the
fixed constant placeholder URL of unsplash.js lines 19 and 23 — a
deterministic URL independent of the query — caches it under the key and
reports exactly one backend invocation. -/
theorem getOrFetch_failure_placeholder (backend : Str → FetchOutcome)
    (cache : Cache) (key q : Str)
    (hmiss : cacheHitTruthy cache key = false)
    (hb : (∃ m, backend q = .netThrow m) ∨
      (∃ body, backend q = .resp false body) ∨
      (∃ m, backend q = .resp true (.error m)) ∨
      (∃ data, backend q = .resp true (.ok data) ∧
        jsGet (some data) (lit "results") = .ok (some (.arr [])))) :
    getOrFetch backend cache key q =
      (.str placeholderUrl, cacheSet cache key (.str placeholderUrl), 1) := by
  have himg : getPlaceImage (backend q) = some (.str placeholderUrl) := by
    rcases hb with ⟨m, hm⟩ | ⟨body, hbody⟩ | ⟨m, hm⟩ | ⟨data, hdata, hz⟩
    · rw [hm]
      rfl
    · rw [hbody]
      rfl
    · rw [hm]
      rfl
    · rw [hdata]
      exact getPlaceImage_zeroData data hz
  have hfetch : getOrFetchMiss backend cache key q =
      (.str placeholderUrl, cacheSet cache key (.str placeholderUrl), 1) := by
    unfold getOrFetchMiss
    rw [himg]
    rfl
  unfold cacheHitTruthy at hmiss
  unfold getOrFetch
  cases hc : cacheGet cache key with
  | none => exact hfetch
  | some current =>
    rw [hc] at hmiss
    have hm2 : truthy current = false := hmiss
    dsimp only
    rw [hm2]
    exact hfetch

/-- Witness for C8 (amended) at a concrete empty cache, once against a
zero-results backend and once against a backend whose fetch rejects. -/
theorem getOrFetch_failure_placeholder_witness :
    getOrFetch zeroResultsBackend [] (lit "paris") (lit "paris") =
      (.str placeholderUrl, cacheSet [] (lit "paris") (.str placeholderUrl), 1) ∧
    getOrFetch downBackend [] (lit "kyoto") (lit "kyoto") =
      (.str placeholderUrl, cacheSet [] (lit "kyoto") (.str placeholderUrl), 1) :=
  ⟨getOrFetch_failure_placeholder zeroResultsBackend [] (lit "paris") (lit "paris") rfl
      (Or.inr (Or.inr (Or.inr ⟨.obj [(lit "results", .arr [])], rfl, rfl⟩))),
    getOrFetch_failure_placeholder downBackend [] (lit "kyoto") (lit "kyoto") rfl
      (Or.inl ⟨lit "fetch failed", rfl⟩)⟩

/-- C8 counterexample: with zero results for the query "paris" the resolver
returns the fixed placeholder, which does not contain the URL-encoded query
term, and the returned URL is identical for two entirely different queries,
so it is not derived from the query string. -/
theorem getOrFetch_zeroResults_counterexample :
    (getOrFetch zeroResultsBackend [] (lit "paris") (lit "paris")).1 =
      .str placeholderUrl ∧
    listContains placeholderUrl (encodeURIComponent (lit "paris")) = false ∧
    (getOrFetch zeroResultsBackend [] (lit "k1") (lit "paris")).1 =
      (getOrFetch zeroResultsBackend [] (lit "k2") (lit "tokyo")).1 :=
  ⟨rfl, rfl, rfl⟩

/-- C10 (amended): `getPlaceImage` is total — every backend behaviour yields
a returned value rather than an exception.  A network throw, a non-ok
response, a body whose decoding throws, a zero-result success and a thrown
`TypeError` inside the result property chain all yield the fixed placeholder
constant; when the property chain returns normally its value is passed
through unchanged, which for malformed results may be `undefined` or another
falsy value rather than a non-empty URL string. -/
theorem getPlaceImage_spec (msg : Str) (body : Except Str JValue) (data : JValue) :
    getPlaceImage (.netThrow msg) = some (.str placeholderUrl) ∧
    getPlaceImage (.resp false body) = some (.str placeholderUrl) ∧
    getPlaceImage (.resp true (.error msg)) = some (.str placeholderUrl) ∧
    (jsGet (some data) (lit "results") = .ok (some (.arr [])) →
      getPlaceImage (.resp true (.ok data)) = some (.str placeholderUrl)) ∧
    (∀ m : Str, imageFromData data = .error m →
      getPlaceImage (.resp true (.ok data)) = some (.str placeholderUrl)) ∧
    (∀ v, imageFromData data = .ok v → getPlaceImage (.resp true (.ok data)) = v) := by
  refine ⟨rfl, rfl, rfl, ?_, ?_, ?_⟩
  · intro hz
    exact getPlaceImage_zeroData data hz
  · intro m hm
    unfold getPlaceImage
    dsimp only
    rw [hm]
    rfl
  · intro v hv
    unfold getPlaceImage
    dsimp only
    rw [hv]
    rfl

/-- Witness for C10 (amended): concrete network failure, zero-result and
malformed-result behaviours. -/
theorem getPlaceImage_spec_witness :
    getPlaceImage (.netThrow (lit "timeout")) = some (.str placeholderUrl) ∧
    getPlaceImage (.resp true (.ok (.obj [(lit "results", .arr [])]))) =
      some (.str placeholderUrl) ∧
    getPlaceImage malformedResultOutcome = none :=
  ⟨(getPlaceImage_spec (lit "timeout") (.error []) JValue.null).1,
    (getPlaceImage_spec [] (.error []) (.obj [(lit "results", .arr [])])).2.2.2.1 rfl,
    (getPlaceImage_spec [] (.error [])
      (.obj [(lit "results", .arr [.obj [(lit "urls", .obj [])]])])).2.2.2.2.2 none rfl⟩

/-- C10 counterexample: a successful response whose first result lacks a
urls.regular field makes `getPlaceImage` return `undefined` — not a
non-empty URL string — and on that backend the query-derived
source.unsplash.com fallback branch inside `getOrFetch` is reached, with a
URL different from the fixed placeholder. -/
theorem getPlaceImage_counterexample :
    getPlaceImage malformedResultOutcome = none ∧
    (getOrFetch (fun _ => malformedResultOutcome) [] (lit "louvre") (lit "louvre")).1 =
      .str (unsplashFallback (lit "louvre")) ∧
    unsplashFallback (lit "louvre") ≠ placeholderUrl :=
  ⟨rfl, rfl, by decide⟩

/-! ## C4: chunk validation -/

/-- Property reads only throw on a null receiver. -/
theorem vget_ok (v : JValue) (k : Str) (h : v ≠ JValue.null) :
    vget v k = .ok (jget v k) := by
  cases v with
  | null => exact absurd rfl h
  | bool b => rfl
  | num m sc => rfl
  | str s => rfl
  | arr xs => rfl
  | obj fs => rfl

/-- The shallow day check rejects a null day before it can be read. -/
theorem dayShallowOkB_null : dayShallowOkB JValue.null = false := rfl

/-- The boolean place predicate rejects a null place. -/
theorem placeOkB_null : placeOkB JValue.null = false := rfl

/-- The boolean day predicate rejects a null day. -/
theorem dayOkB_null : dayOkB JValue.null = false := rfl

/-- On a non-null place the monadic check computes the boolean predicate. -/
theorem validatePlace_eq (pl : JValue) (h : pl ≠ JValue.null) :
    validatePlace pl = .ok (placeOkB pl) := by
  unfold validatePlace placeOkB
  rw [vget_ok pl (lit "name") h, vget_ok pl (lit "description") h,
    vget_ok pl (lit "location") h]
  dsimp only
  cases ha : truthyOpt (jget pl (lit "name")) <;>
    cases hb : truthyOpt (jget pl (lit "description")) <;>
      cases hc : truthyOpt (jget pl (lit "location")) <;> simp

/-- The place loop succeeds exactly when every place satisfies the boolean
predicate, a null place counting as a failure via its thrown TypeError. -/
theorem validatePlaces_isOk (s e i : Nat) :
    ∀ (p : Nat) (ps : List JValue),
      (validatePlaces s e i p ps).isOk = ps.all placeOkB := by
  intro p ps
  induction ps generalizing p with
  | nil => rfl
  | cons pl rest ih =>
    by_cases hn : pl = JValue.null
    · subst hn
      have h1 : validatePlace JValue.null = .error (nullReadMsg (lit "name")) := rfl
      simp only [validatePlaces, h1, List.all_cons, placeOkB_null]
      simp [Except.isOk, Except.toBool]
    · simp only [validatePlaces, validatePlace_eq pl hn, List.all_cons]
      cases hok : placeOkB pl with
      | false => simp [Except.isOk, Except.toBool]
      | true => simpa using ih (p + 1)

/-- On a non-null day the day check reduces to the shallow test followed by
the place loop. -/
theorem validateDay_eq (s e i : Nat) (d : JValue) (h : d ≠ JValue.null) :
    validateDay s e i d =
      if dayShallowOkB d then
        validatePlaces s e i 0 (itinList (jget d (lit "itinerary")))
      else .error (dayMsg i s e) := by
  unfold validateDay dayShallowOkB
  rw [vget_ok d (lit "title") h, vget_ok d (lit "itinerary") h]
  dsimp only
  cases ha : truthyOpt (jget d (lit "title")) <;>
    cases hb : truthyOpt (jget d (lit "itinerary")) <;>
      cases hc : isArrOpt (jget d (lit "itinerary")) <;> simp

/-- The day loop succeeds exactly when every day satisfies the boolean day
predicate. -/
theorem validateDays_isOk (s e : Nat) :
    ∀ (i : Nat) (ds : List JValue),
      (validateDays s e i ds).isOk = ds.all dayOkB := by
  intro i ds
  induction ds generalizing i with
  | nil => rfl
  | cons d rest ih =>
    by_cases hn : d = JValue.null
    · subst hn
      have h1 : validateDay s e i JValue.null = .error (nullReadMsg (lit "title")) := rfl
      simp only [validateDays, h1, List.all_cons, dayOkB_null]
      simp [Except.isOk, Except.toBool]
    · simp only [validateDays, validateDay_eq s e i d hn, List.all_cons]
      have hday : dayOkB d =
          (dayShallowOkB d && (itinList (jget d (lit "itinerary"))).all placeOkB) := rfl
      rw [hday]
      cases hsh : dayShallowOkB d with
      | false => simp [Except.isOk, Except.toBool]
      | true =>
        have hpl := validatePlaces_isOk s e i 0 (itinList (jget d (lit "itinerary")))
        cases hv : validatePlaces s e i 0 (itinList (jget d (lit "itinerary"))) with
        | error m =>
          rw [hv] at hpl
          simp [Except.isOk, Except.toBool, ← hpl]
        | ok u =>
          rw [hv] at hpl
          simp [Except.isOk, Except.toBool, ← hpl]
          simpa [Except.isOk, Except.toBool] using ih (i + 1)

/-- The validator accepts a payload exactly when the boolean chunk predicate
holds. -/
theorem validateChunk_isOk (s e : Nat) (v : JValue) :
    (validateChunk s e v).isOk = chunkOkB v := by
  cases v with
  | arr ds =>
    simp only [validateChunk, chunkOkB]
    cases hv : validateDays s e 0 ds with
    | error m =>
      have h := validateDays_isOk s e 0 ds
      rw [hv] at h
      simp [Except.isOk, Except.toBool, ← h]
    | ok u =>
      have h := validateDays_isOk s e 0 ds
      rw [hv] at h
      simp [Except.isOk, Except.toBool, ← h]
  | null => rfl
  | bool b => rfl
  | num m sc => rfl
  | str s2 => rfl
  | obj fs => rfl

/-- The place loop pinpoints the first bad non-null place with the indexed
error of line 133. -/
theorem validatePlaces_firstBad (s e i : Nat) :
    ∀ (p : Nat) (ppre : List JValue) (pl : JValue) (ppost : List JValue),
      (∀ x ∈ ppre, placeOkB x = true) → pl ≠ JValue.null → placeOkB pl = false →
      validatePlaces s e i p (ppre ++ pl :: ppost) =
        .error (placeMsg (p + ppre.length) i s e) := by
  intro p ppre
  induction ppre generalizing p with
  | nil =>
    intro pl ppost _ hn hbad
    simp only [List.nil_append, validatePlaces, validatePlace_eq pl hn, hbad]
    simp
  | cons x ppre ih =>
    intro pl ppost hpre hn hbad
    have hx : placeOkB x = true := hpre x (List.mem_cons_self _ _)
    have hxn : x ≠ JValue.null := by
      intro hh
      rw [hh, placeOkB_null] at hx
      exact Bool.noConfusion hx
    simp only [List.cons_append, validatePlaces, validatePlace_eq x hxn, hx]
    have harith : p + (x :: ppre).length = (p + 1) + ppre.length := by
      simp only [List.length_cons]
      omega
    rw [harith]
    simpa using ih (p + 1) pl ppost (fun y hy => hpre y (List.mem_cons_of_mem _ hy)) hn hbad

/-- A day whose boolean predicate holds passes the full day check. -/
theorem validateDay_ofOk (s e i : Nat) (d : JValue) (hday : dayOkB d = true) :
    validateDay s e i d = .ok () := by
  have hn : d ≠ JValue.null := by
    intro hh
    rw [hh, dayOkB_null] at hday
    exact Bool.noConfusion hday
  have hparts := (Bool.and_eq_true _ _).mp
    (show (dayShallowOkB d && (itinList (jget d (lit "itinerary"))).all placeOkB) = true
      from hday)
  have hpl := validatePlaces_isOk s e i 0 (itinList (jget d (lit "itinerary")))
  rw [hparts.2] at hpl
  rw [validateDay_eq s e i d hn, if_pos hparts.1]
  cases hv : validatePlaces s e i 0 (itinList (jget d (lit "itinerary"))) with
  | error m =>
    rw [hv] at hpl
    exact absurd hpl (by simp [Except.isOk, Except.toBool])
  | ok u =>
    cases u
    rfl

/-- The day loop pinpoints the first shallowly-malformed non-null day with
the indexed error of line 127. -/
theorem validateDays_dayBad (s e : Nat) :
    ∀ (i : Nat) (pre : List JValue) (d : JValue) (post : List JValue),
      (∀ x ∈ pre, dayOkB x = true) → d ≠ JValue.null → dayShallowOkB d = false →
      validateDays s e i (pre ++ d :: post) = .error (dayMsg (i + pre.length) s e) := by
  intro i pre
  induction pre generalizing i with
  | nil =>
    intro d post _ hn hsh
    simp only [List.nil_append, validateDays]
    rw [validateDay_eq s e i d hn, if_neg (by simp [hsh])]
    simp
  | cons x pre ih =>
    intro d post hpre hn hsh
    have hx : dayOkB x = true := hpre x (List.mem_cons_self _ _)
    simp only [List.cons_append, validateDays, validateDay_ofOk s e i x hx]
    have harith : i + (x :: pre).length = (i + 1) + pre.length := by
      simp only [List.length_cons]
      omega
    rw [harith]
    exact ih (i + 1) d post (fun y hy => hpre y (List.mem_cons_of_mem _ hy)) hn hsh

/-- The day loop pinpoints the first bad place inside the first day whose
shallow structure is fine but whose itinerary contains a malformed entry,
with the doubly-indexed error of line 133. -/
theorem validateDays_placeBad (s e : Nat) :
    ∀ (i : Nat) (pre : List JValue) (d : JValue) (post : List JValue)
      (ppre : List JValue) (pl : JValue) (ppost : List JValue),
      (∀ x ∈ pre, dayOkB x = true) → dayShallowOkB d = true →
      itinList (jget d (lit "itinerary")) = ppre ++ pl :: ppost →
      (∀ x ∈ ppre, placeOkB x = true) → pl ≠ JValue.null → placeOkB pl = false →
      validateDays s e i (pre ++ d :: post) =
        .error (placeMsg ppre.length (i + pre.length) s e) := by
  intro i pre
  induction pre generalizing i with
  | nil =>
    intro d post ppre pl ppost _ hsh hitin hppre hn hbad
    have hdn : d ≠ JValue.null := by
      intro hh
      rw [hh, dayShallowOkB_null] at hsh
      exact Bool.noConfusion hsh
    simp only [List.nil_append, validateDays]
    rw [validateDay_eq s e i d hdn, if_pos hsh, hitin,
      validatePlaces_firstBad s e i 0 ppre pl ppost hppre hn hbad]
    simp
  | cons x pre ih =>
    intro d post ppre pl ppost hpre hsh hitin hppre hn hbad
    have hx : dayOkB x = true := hpre x (List.mem_cons_self _ _)
    simp only [List.cons_append, validateDays, validateDay_ofOk s e i x hx]
    have harith : i + (x :: pre).length = (i + 1) + pre.length := by
      simp only [List.length_cons]
      omega
    rw [harith]
    exact ih (i + 1) d post ppre pl ppost
      (fun y hy => hpre y (List.mem_cons_of_mem _ hy)) hsh hitin hppre hn hbad

/-- C4 (amended): validation accepts a parsed payload exactly when it is an
array whose every element has a truthy title and an array-typed itinerary
and whose every itinerary entry has truthy name, description and location
with numeric lat and lng; a violation of these checks on a non-null element
raises the window-scoped error naming the index of the first offending day
(and place, where applicable).  A null element instead raises a TypeError
carrying no index, so the indexed-message guarantee holds for non-null
offenders only. -/
theorem validateChunk_spec (s e : Nat) (v : JValue) :
    ((validateChunk s e v).isOk = chunkOkB v) ∧
    (∀ pre d post, v = .arr (pre ++ d :: post) → (∀ x ∈ pre, dayOkB x = true) →
      d ≠ JValue.null → dayShallowOkB d = false →
      validateChunk s e v = .error (dayMsg pre.length s e)) ∧
    (∀ pre d post ppre pl ppost, v = .arr (pre ++ d :: post) →
      (∀ x ∈ pre, dayOkB x = true) → dayShallowOkB d = true →
      itinList (jget d (lit "itinerary")) = ppre ++ pl :: ppost →
      (∀ x ∈ ppre, placeOkB x = true) → pl ≠ JValue.null → placeOkB pl = false →
      validateChunk s e v = .error (placeMsg ppre.length pre.length s e)) := by
  refine ⟨validateChunk_isOk s e v, ?_, ?_⟩
  · intro pre d post hv hpre hn hsh
    subst hv
    simp only [validateChunk]
    rw [validateDays_dayBad s e 0 pre d post hpre hn hsh]
    simp
  · intro pre d post ppre pl ppost hv hpre hsh hitin hppre hn hbad
    subst hv
    simp only [validateChunk]
    rw [validateDays_placeBad s e 0 pre d post ppre pl ppost hpre hsh hitin hppre hn hbad]
    simp

/-- C4 counterexample: the parsed payload consisting of a single null day is
rejected, but through a TypeError whose message identifies no element index
(it does not even contain the digit of the offending index), unlike the
indexed message the claim promises for every violation. -/
theorem validateChunk_nullDay_counterexample :
    validateChunk 1 7 (.arr [JValue.null]) = .error (nullReadMsg (lit "title")) ∧
    listContains (nullReadMsg (lit "title")) (natStr 0) = false ∧
    chunkOkB (.arr [JValue.null]) = false :=
  ⟨rfl, rfl, rfl⟩

/-- Witness for C4 (amended): a valid chunk is accepted; a falsy title is
reported at day index 0; a place lacking a description inside the second day
is reported as place 0 of day 1. -/
theorem validateChunk_spec_witness :
    (validateChunk 1 7 (.arr parsedDay1)).isOk = true ∧
    validateChunk 1 7 (.arr [badDayExample]) = .error (dayMsg 0 1 7) ∧
    validateChunk 1 7 (.arr (parsedDay1 ++ [badPlaceDay])) = .error (placeMsg 0 1 1 7) :=
  ⟨((validateChunk_spec 1 7 (.arr parsedDay1)).1).trans rfl,
    (validateChunk_spec 1 7 (.arr [badDayExample])).2.1 [] badDayExample [] rfl
      (by simp) (fun h => JValue.noConfusion h) rfl,
    (validateChunk_spec 1 7 (.arr (parsedDay1 ++ [badPlaceDay]))).2.2 parsedDay1
      badPlaceDay [] [] badPlaceExample [] rfl (by decide) rfl rfl (by simp)
      (fun h => JValue.noConfusion h) rfl⟩

/-! ## C5: defensive JSON extraction -/

/-- C5: extraction first cleans the response (trim, fence stripping, bracket
slice) and parses it; on a parse failure it scans once with the recovery
regex for an array-shaped substring and retries parsing exactly once,
propagating a window-scoped error when no retry is possible or the retry
fails too.  In particular a valid JSON array wrapped in code fences and
surrounded by prose is isolated and parsed successfully. -/
theorem extractJson_pipeline (s e : Nat) (text : Str) :
    (∀ v, jsonParse (cleanedText text) = some v → extractJson s e text = .ok v) ∧
    (∀ m v, jsonParse (cleanedText text) = none →
      regexArrayMatch (cleanedText text) = some m → jsonParse m = some v →
      extractJson s e text = .ok v) ∧
    (∀ m, jsonParse (cleanedText text) = none →
      regexArrayMatch (cleanedText text) = some m → jsonParse m = none →
      extractJson s e text =
        .error (lit "JSON parsing failed for days " ++ natStr s ++ lit "-" ++
          natStr e ++ lit ": " ++ jsonSyntaxError)) ∧
    (jsonParse (cleanedText text) = none → regexArrayMatch (cleanedText text) = none →
      extractJson s e text =
        .error (lit "No valid JSON array found in response for days " ++
          natStr s ++ lit "-" ++ natStr e)) ∧
    extractJson 1 7 fencedExample = .ok day1Value := by
  refine ⟨?_, ?_, ?_, ?_, rfl⟩
  · intro v h1
    unfold extractJson
    rw [h1]
  · intro m v h1 h2 h3
    unfold extractJson
    rw [h1, h2]
    dsimp only
    rw [h3]
  · intro m h1 h2 h3
    unfold extractJson
    rw [h1, h2]
    dsimp only
    rw [h3]
  · intro h1 h2
    unfold extractJson
    rw [h1, h2]

/-- Witness for C5: the fenced example resolves through the direct-parse path
and a fence-free prose response with a broken array exercises the recovery
branch. -/
theorem extractJson_pipeline_witness :
    extractJson 1 7 fencedExample = .ok day1Value ∧
    extractJson 1 7 (lit "no array here") =
      .error (lit "No valid JSON array found in response for days " ++
        natStr 1 ++ lit "-" ++ natStr 7) :=
  ⟨(extractJson_pipeline 1 7 fencedExample).1 day1Value rfl,
    (extractJson_pipeline 1 7 (lit "no array here")).2.2.2.1 rfl rfl⟩
